import Mathlib

/-!
Verification of the Tourist-Advisor expert system (Sri Lanka itinerary planner).

The development shallowly embeds the forward-chaining run of the engine in
`src/app.py`: the seed knowledge declared in `ItineraryEngine._initial_knowledge`,
the production rules (`determine_bad_weather_region`, `determine_good_weather_region`,
`detect_unknown_interests`, `find_potential_matches`,
`conflict_travel_time_sigiriya_arugam`, `conflict_too_many_stops`) and the
deterministic itinerary builder `build_final_itinerary`, composed by the driver
`run_itinerary_logic`.  Rules fire by salience (100, 90, 50, 10 in pass order,
the builder at -100, the two conflict rules at the default 0 once `ItineraryItem`
facts exist), and no fact is ever retracted, so each rule contributes its facts
exactly once per run; the embedding computes, for each rule, the list of facts
the rule asserts over the whole run, in a fixed assertion order.  The external
LLM lookup of `call_llm_agent` is an oracle parameter of the run.
-/

namespace TouristAdvisor

/-- Embeds the `Location` fact class of app.py: name, type (interest tag),
region, route priority (lower = earlier on the classic route; 99 is the default
used for LLM-provided locations) and description. -/
structure Location where
  name : String
  type : String
  region : String
  priority : Int
  description : String
deriving DecidableEq, Repr

/-- Embeds the `PotentialMatch` fact class of app.py: a candidate stop carrying
the matched location fields. -/
structure PotentialMatch where
  location : String
  type : String
  region : String
  priority : Int
  description : String
deriving DecidableEq, Repr

/-- Embeds the `ItineraryItem` fact class of app.py: a final numbered stop. -/
structure ItineraryItem where
  stop_number : Nat
  location : String
  reason : String
  description : String
deriving DecidableEq, Repr

/-- The twenty `Location` facts yielded by `ItineraryEngine._initial_knowledge`
in app.py, in declaration order. -/
def seedLocations : List Location :=
  [ ⟨"Anuradhapura", "history", "cultural_triangle", 1,
      "Explore the vast ruins of the first ancient capital."⟩,
    ⟨"Polonnaruwa", "history", "cultural_triangle", 2,
      "See the well-preserved medieval capital\x27s temples and statues."⟩,
    ⟨"Sigiriya", "history", "cultural_triangle", 3,
      "Climb the iconic Lion Rock fortress."⟩,
    ⟨"Dambulla", "history", "cultural_triangle", 4,
      "Visit the impressive Golden Cave Temples."⟩,
    ⟨"Kandy", "culture", "hill_country", 5,
      "Visit the Temple of the Tooth Relic and cultural shows."⟩,
    ⟨"Nuwara Eliya", "hiking", "hill_country", 6,
      "Walk through lush tea plantations in \x27Little England\x27."⟩,
    ⟨"Horton Plains", "hiking", "hill_country", 7,
      "Hike to the stunning \x27World\x27s End\x27 viewpoint."⟩,
    ⟨"Ella", "hiking", "hill_country", 8,
      "See the Nine Arch Bridge and hike Little Adam\x27s Peak."⟩,
    ⟨"Yala", "wildlife", "south_east", 9,
      "Go on a safari to spot leopards, elephants, and bears."⟩,
    ⟨"Udawalawe", "wildlife", "south", 10,
      "See large herds of elephants at the National Park."⟩,
    ⟨"Mirissa", "beach", "south_west", 11,
      "Go whale watching (in season) or relax on the beach."⟩,
    ⟨"Unawatuna", "beach", "south_west", 12,
      "A famous palm-lined beach with calm waters for swimming."⟩,
    ⟨"Galle", "culture", "south_west", 13,
      "Walk the historic ramparts of the UNESCO Dutch Fort."⟩,
    ⟨"Bentota", "watersports", "south_west", 14,
      "Popular hub for water skiing, jet skiing, and boat tours."⟩,
    ⟨"Hikkaduwa", "beach", "south_west", 15,
      "Known for its coral reefs (snorkeling) and surf spots."⟩,
    ⟨"Sinharaja", "hiking", "south_west", 16,
      "Trek in a UNESCO World Heritage rainforest, a biodiversity hotspot."⟩,
    ⟨"Arugam Bay", "surfing", "east_coast", 20,
      "A world-famous surfing destination for all levels."⟩,
    ⟨"Trincomalee", "beach", "east_coast", 21,
      "Visit Koneswaram Temple and enjoy Nilaveli/Uppuveli beaches."⟩,
    ⟨"Pasikudah", "beach", "east_coast", 22,
      "Famous for its long, shallow coastline, perfect for relaxing."⟩,
    ⟨"Jaffna", "culture", "north", 30,
      "Explore the unique culture, temples, and islands of the Northern peninsula."⟩ ]

/-- The twenty-six `Weather` facts (bad_region, month) yielded by
`_initial_knowledge` in app.py, in declaration order. -/
def seedWeather : List (String × String) :=
  [ ("south_west", "may"), ("south_west", "june"), ("south_west", "july"),
    ("south_west", "august"), ("south_west", "september"),
    ("south", "may"), ("south", "june"), ("south", "july"), ("south", "august"),
    ("hill_country", "may"), ("hill_country", "june"), ("hill_country", "july"),
    ("hill_country", "august"),
    ("east_coast", "october"), ("east_coast", "november"), ("east_coast", "december"),
    ("east_coast", "january"), ("east_coast", "february"),
    ("cultural_triangle", "october"), ("cultural_triangle", "november"),
    ("cultural_triangle", "december"), ("cultural_triangle", "january"),
    ("north", "october"), ("north", "november"), ("north", "december"),
    ("north", "january") ]

/-- Models Python `str.lower` on the month strings handled by the program
(`month.lower()` in `run_itinerary_logic`), character by character. -/
def lowerStr (s : String) : String := ⟨s.data.map Char.toLower⟩

/-- Models the `TEST(lambda i_list: i_list and \x27beach\x27 in i_list)` guard shared by
the two weather rules of app.py: the interest list is non-empty and contains
"beach" (membership already forces non-emptiness). -/
def wantsBeach (interests : List String) : Bool := decide ("beach" ∈ interests)

/-- The warning text asserted by `determine_bad_weather_region` in app.py
(also used as the reason of the avoid `Recommendation`). -/
def weatherMsg (region month : String) : String :=
  "Avoiding " ++ region ++ " for beaches due to monsoon in " ++ month ++ "."

/-- Models the rule `determine_bad_weather_region` (salience 100) of app.py: one
instantiation per `Weather` fact whose month equals the request month, provided
the user asked for beach travel; each firing asserts one `Recommendation` with
an `avoid_region` field.  The returned list holds the `avoid_region` values of
all asserted avoid recommendations. -/
def determineBadWeatherRegion (month : String) (interests : List String) : List String :=
  if wantsBeach interests then
    (seedWeather.filter (fun w => w.2 == month)).map (fun w => w.1)
  else []

/-- The `Warning` facts asserted by `determine_bad_weather_region`: one monsoon
warning per derived avoid region. -/
def weatherWarnings (month : String) (interests : List String) : List String :=
  if wantsBeach interests then
    (seedWeather.filter (fun w => w.2 == month)).map (fun w => weatherMsg w.1 w.2)
  else []

/-- Models the rule `determine_good_weather_region` (salience 90) of app.py: one
instantiation per beach-typed `Location` whose region carries no avoid
recommendation (the `NOT` condition; all avoid recommendations exist by then
because the avoid rule has higher salience); the action guard skips declaring a
`suggest_region` recommendation whose region was already suggested.  The
returned list holds the `suggest_region` values of all asserted
recommendations, in assertion order. -/
def determineGoodWeatherRegion (month : String) (interests : List String) : List String :=
  if wantsBeach interests then
    ((seedLocations.filter (fun l =>
        l.type == "beach" && !decide (l.region ∈ determineBadWeatherRegion month interests))).map
      (fun l => l.region)).foldl
      (fun acc r => if r ∈ acc then acc else acc ++ [r]) []
  else []

/-- Models the rule `detect_unknown_interests` (salience 50) of app.py: every
interest of the request that is not the `type` of any `Location` fact in the
store at match time (the store then holds exactly the seed locations) yields a
`FindInfo` fact; the engine ignores a duplicate declaration of an identical
fact, so each unknown interest yields one `FindInfo`.  The returned list holds
the `interest` fields of the `FindInfo` facts, in assertion order. -/
def detectUnknownInterests (interests : List String) : List String :=
  (interests.filter (fun i => !decide (i ∈ seedLocations.map (fun l => l.type)))).foldl
    (fun acc i => if i ∈ acc then acc else acc ++ [i]) []

/-- Projects a `Location` fact to the `PotentialMatch` fact asserted for it by
`find_potential_matches` in app.py. -/
def toPotentialMatch (l : Location) : PotentialMatch :=
  ⟨l.name, l.type, l.region, l.priority, l.description⟩

/-- Models the rule `find_potential_matches` (salience 10) of app.py over a
given list of `Location` facts: one instantiation per location whose type is
among the interests and whose region carries no avoid recommendation (all avoid
recommendations exist before this rule fires). -/
def findPotentialMatches (month : String) (interests : List String)
    (locations : List Location) : List PotentialMatch :=
  (locations.filter (fun l =>
      decide (l.type ∈ interests) &&
      !decide (l.region ∈ determineBadWeatherRegion month interests))).map toPotentialMatch

/-- Models `call_llm_agent` plus the driver loop of `run_itinerary_logic` that
turns each `FindInfo` fact into a new `Location` fact when the LLM oracle
returns a (name, region) pair; the new location gets the interest as its type
and the class defaults priority 99 and the stock description. -/
def llmLocations (interests : List String)
    (llm : String → Option (String × String)) : List Location :=
  (detectUnknownInterests interests).filterMap (fun i =>
    (llm i).map (fun nr => ⟨nr.1, i, nr.2, 99, "A popular tourist location."⟩))

/-- Models the pacing computation `max_stops = max(1, (d // 2) + 1)` of
`build_final_itinerary` in app.py; Python `//` is floor division, `Int.fdiv`. -/
def maxStops (d : Int) : Int := max 1 (Int.fdiv d 2 + 1)

/-- Models the `sort_key` closure of `build_final_itinerary` in app.py: the
route priority, minus a bonus of 100 when the region equals the (optional)
suggested region. -/
def sortKey (suggest : Option String) (m : PotentialMatch) : Int :=
  if suggest == some m.region then m.priority - 100 else m.priority

/-- Models Python `sorted(l, key=key)` (a stable sort by an integer key):
`List.insertionSort` on the keyed preorder is stable, and any two stable sorts
agree. -/
def pySorted {α : Type} (key : α → Int) (l : List α) : List α :=
  List.insertionSort (fun a b => key a ≤ key b) l

/-- Models the selection loop of `build_final_itinerary` (source section 4):
walk the sorted candidates, stop once `max_stops` stops were taken, and skip a
candidate whose location was already taken.  The accumulators are the
`final_stops` list and the `locations_added` set (kept as a list). -/
def selectLoop (budget : Int) :
    List PotentialMatch → List PotentialMatch → List String → List PotentialMatch
  | [], finalStops, _ => finalStops
  | m :: rest, finalStops, added =>
    if budget ≤ (finalStops.length : Int) then finalStops
    else if m.location ∈ added then selectLoop budget rest finalStops added
    else selectLoop budget rest (finalStops ++ [m]) (added ++ [m.location])

/-- Models section 3 of `build_final_itinerary` in app.py: drop every candidate
whose region equals the avoid region, when an avoid recommendation exists. -/
def filterAvoid (avoid : Option String) (allMatches : List PotentialMatch) :
    List PotentialMatch :=
  match avoid with
  | some r => allMatches.filter (fun m => m.region != r)
  | none => allMatches

/-- Models sections 3-6 of `build_final_itinerary` in app.py: filter out the
avoided region, sort by the bonus-laden key, select at most `max_stops`
distinct locations, and re-sort the selection by raw priority.  Returns the
`final_sorted_stops` list. -/
def selectStops (d : Int) (allMatches : List PotentialMatch)
    (avoid suggest : Option String) : List PotentialMatch :=
  pySorted (fun m => m.priority)
    (selectLoop (maxStops d) (pySorted (sortKey suggest) (filterAvoid avoid allMatches)) [] [])

/-- The reason string of an `ItineraryItem` asserted by app.py. -/
def mkReason (t : String) : String := "Matches \x27" ++ t ++ "\x27 interest"

/-- Models the final `for i, stop in enumerate(final_sorted_stops)` loop of
`build_final_itinerary` with the running stop number `i + 1` made explicit:
`numberStopsFrom n stops` asserts one `ItineraryItem` per stop, numbering
consecutively from `n`. -/
def numberStopsFrom (n : Nat) : List PotentialMatch → List ItineraryItem
  | [] => []
  | s :: rest =>
    ⟨n, s.location, mkReason s.type, s.description⟩ :: numberStopsFrom (n + 1) rest

/-- Models the final loop of `build_final_itinerary`: one `ItineraryItem` per
selected stop, numbered from 1 in the re-sorted order. -/
def numberStops (stops : List PotentialMatch) : List ItineraryItem :=
  numberStopsFrom 1 stops

/-- Models the rule `build_final_itinerary` (salience -100) of app.py as the
list of `ItineraryItem` facts one firing asserts.  The rule returns early (no
facts) when no `PotentialMatch` is in the store; `numberStops` of an empty
selection likewise yields no facts. -/
def buildFinalItinerary (d : Int) (allMatches : List PotentialMatch)
    (avoid suggest : Option String) : List ItineraryItem :=
  if allMatches.isEmpty then []
  else numberStops (selectStops d allMatches avoid suggest)

/-- Decides whether one character list starts with another (auxiliary for the
substring check of the too-many-stops guard). -/
def prefixChars : List Char → List Char → Bool
  | [], _ => true
  | _ :: _, [] => false
  | c :: cs, d :: ds => c == d && prefixChars cs ds

/-- Decides whether `pat` occurs inside `s` (auxiliary). -/
def infixChars (pat : List Char) : List Char → Bool
  | [] => pat.isEmpty
  | c :: rest => prefixChars pat (c :: rest) || infixChars pat rest

/-- Models Python `pat in s` on strings: substring containment. -/
def strContains (s pat : String) : Bool := infixChars pat.toList s.toList

/-- The guard check of `conflict_too_many_stops` in app.py applied to one
warning message: `"many stops" in f.get(\x27message\x27)`. -/
def isManyStopsWarning (m : String) : Bool := strContains m "many stops"

/-- The warning text asserted by `conflict_too_many_stops` in app.py. -/
def manyStopsMsg : String :=
  "Plan has many stops for a short trip. Consider focusing on one region."

/-- The warning text asserted by `conflict_travel_time_sigiriya_arugam`. -/
def travelMsg : String :=
  "High travel time between Cultural Triangle (Sigiriya) and East Coast (Arugam Bay). Difficult in < 10 days."

/-- Models the rule `conflict_travel_time_sigiriya_arugam` of app.py: when the
duration is under 10 and both a Sigiriya and an Arugam Bay `ItineraryItem` fact
exist, the (single) instantiation asserts the travel-time warning.  `ws` is the
warning store before the rule considers firing. -/
def conflictTravelTime (d : Int) (items : List ItineraryItem)
    (ws : List String) : List String :=
  if d < 10 ∧ (∃ a ∈ items, a.location = "Sigiriya") ∧
      (∃ b ∈ items, b.location = "Arugam Bay") then ws ++ [travelMsg]
  else ws

/-- The rule instantiations of `conflict_too_many_stops`: ordered triples of
`ItineraryItem` facts with pairwise distinct locations. -/
def distinctTriples (items : List ItineraryItem) :
    List (ItineraryItem × ItineraryItem × ItineraryItem) :=
  (items.flatMap (fun a => items.flatMap (fun b => items.map (fun c => (a, b, c))))).filter
    (fun t => t.1.location != t.2.1.location && t.1.location != t.2.2.location &&
      t.2.1.location != t.2.2.location)

/-- Models the rule `conflict_too_many_stops` of app.py: when the duration is
under 7, every instantiation (triple of items with pairwise distinct locations)
fires in turn, but the action first scans the warning store and skips the
assertion when some warning already contains the substring "many stops". -/
def conflictTooManyStops (d : Int) (items : List ItineraryItem)
    (ws : List String) : List String :=
  if d < 7 then
    (distinctTriples items).foldl
      (fun acc _ => if acc.any isManyStopsWarning then acc else acc ++ [manyStopsMsg]) ws
  else ws

/-- The observable outcome of one run of `run_itinerary_logic` in app.py: the
asserted `FindInfo` interests, the avoid and suggest recommendation regions,
the stops selected by the builder, the asserted `ItineraryItem` facts and the
asserted `Warning` messages (in assertion order). -/
structure RunResult where
  findInfos : List String
  avoidRecs : List String
  suggestRecs : List String
  stops : List PotentialMatch
  itinerary : List ItineraryItem
  warnings : List String
deriving DecidableEq, Repr

/-- The `PotentialMatch` facts in the store when `build_final_itinerary` fires:
the rule is guarded by `EXISTS(PotentialMatch())`, which activates once when
the first `PotentialMatch` appears, so the builder fires at the end of pass 1
on the pass-1 matches when there are any, and otherwise at the end of pass 2 on
the matches contributed by the LLM-provided locations. -/
def builderMatches (month : String) (interests : List String)
    (llm : String → Option (String × String)) : List PotentialMatch :=
  let pass1 := findPotentialMatches month interests seedLocations
  if pass1.isEmpty then findPotentialMatches month interests (llmLocations interests llm)
  else pass1

/-- The `avoid_region` value that section 0b of `build_final_itinerary` ends up
with: the loop over the fact store keeps the value of the last avoid-bearing
`Recommendation` it encounters. -/
def builderAvoid (month : String) (interests : List String) : Option String :=
  (determineBadWeatherRegion month interests).getLast?

/-- The `suggest_region` value that section 0b of `build_final_itinerary` ends
up with (last suggest-bearing `Recommendation` in the store). -/
def builderSuggest (month : String) (interests : List String) : Option String :=
  (determineGoodWeatherRegion month interests).getLast?

/-- The stops the run selects (empty when the builder never fires). -/
def runStops (d : Int) (month : String) (interests : List String)
    (llm : String → Option (String × String)) : List PotentialMatch :=
  if (builderMatches month interests llm).isEmpty then []
  else selectStops d (builderMatches month interests llm)
    (builderAvoid month interests) (builderSuggest month interests)

/-- The `ItineraryItem` facts the run asserts. -/
def runItinerary (d : Int) (month : String) (interests : List String)
    (llm : String → Option (String × String)) : List ItineraryItem :=
  buildFinalItinerary d (builderMatches month interests llm)
    (builderAvoid month interests) (builderSuggest month interests)

/-- The `Warning` messages the run asserts: the monsoon warnings of the avoid
rule, then the conflict rules once the itinerary facts exist (both conflict
rules have default salience and the order between them does not change the
asserted set; the embedding fires the travel rule first). -/
def runWarnings (d : Int) (month : String) (interests : List String)
    (llm : String → Option (String × String)) : List String :=
  conflictTooManyStops d (runItinerary d month interests llm)
    (conflictTravelTime d (runItinerary d month interests llm)
      (weatherWarnings month interests))

/-- Models `run_itinerary_logic(duration, month, interests)` of app.py with the
LLM as an oracle: lower-case the month, run pass 1 to fixpoint, resolve the
`FindInfo` facts through the oracle, and run pass 2 to fixpoint. -/
def runItineraryLogic (duration : Int) (rawMonth : String) (interests : List String)
    (llm : String → Option (String × String)) : RunResult :=
  let month := lowerStr rawMonth
  { findInfos := detectUnknownInterests interests
    avoidRecs := determineBadWeatherRegion month interests
    suggestRecs := determineGoodWeatherRegion month interests
    stops := runStops duration month interests llm
    itinerary := runItinerary duration month interests llm
    warnings := runWarnings duration month interests llm }

/-! ### Library of facts about the embedded operations -/

/-- Membership in the duplicate-skipping fold used by the suggest rule and the
unknown-interest rule: an element is in the result iff it is in the initial
accumulator or in the traversed list. -/
theorem dedupFold_mem (l acc : List String) (x : String) :
    (x ∈ l.foldl (fun acc r => if r ∈ acc then acc else acc ++ [r]) acc) ↔
      x ∈ acc ∨ x ∈ l := by
  induction l generalizing acc with
  | nil => simp
  | cons a t ih =>
    simp only [List.foldl_cons]
    by_cases h : a ∈ acc
    · rw [if_pos h, ih]
      constructor
      · rintro (hx | hx)
        · exact Or.inl hx
        · exact Or.inr (List.mem_cons_of_mem _ hx)
      · rintro (hx | hx)
        · exact Or.inl hx
        · rcases List.mem_cons.mp hx with rfl | hx
          · exact Or.inl h
          · exact Or.inr hx
    · rw [if_neg h, ih]
      simp only [List.mem_append, List.mem_cons, List.mem_singleton]
      tauto

/-- The duplicate-skipping fold preserves distinctness of the accumulator. -/
theorem dedupFold_nodup (l acc : List String) (h : acc.Nodup) :
    (l.foldl (fun acc r => if r ∈ acc then acc else acc ++ [r]) acc).Nodup := by
  induction l generalizing acc with
  | nil => simpa using h
  | cons a t ih =>
    simp only [List.foldl_cons]
    by_cases ha : a ∈ acc
    · rw [if_pos ha]; exact ih acc h
    · rw [if_neg ha]
      refine ih _ ?_
      rw [List.nodup_append]
      refine ⟨h, List.nodup_singleton a, ?_⟩
      intro x hx hmem
      rw [List.mem_singleton] at hmem
      exact ha (hmem ▸ hx)

/-- The pacing budget is always at least one stop. -/
theorem maxStops_pos (d : Int) : 1 ≤ maxStops d := le_max_left _ _

/-- The selection loop never grows past the budget. -/
theorem selectLoop_length_le (budget : Int) (l fs : List PotentialMatch)
    (added : List String) (h : (fs.length : Int) ≤ budget) :
    ((selectLoop budget l fs added).length : Int) ≤ budget := by
  induction l generalizing fs added with
  | nil => simpa [selectLoop] using h
  | cons m t ih =>
    simp only [selectLoop]
    by_cases hb : budget ≤ (fs.length : Int)
    · rw [if_pos hb]; exact h
    · rw [if_neg hb]
      by_cases hc : m.location ∈ added
      · rw [if_pos hc]; exact ih fs added h
      · rw [if_neg hc]
        refine ih _ _ ?_
        have hlt : (fs.length : Int) < budget := lt_of_not_ge hb
        simp only [List.length_append, List.length_cons, List.length_nil]
        push_cast
        omega

/-- The selection loop never shrinks the accumulated stops. -/
theorem selectLoop_length_ge (budget : Int) (l fs : List PotentialMatch)
    (added : List String) : fs.length ≤ (selectLoop budget l fs added).length := by
  induction l generalizing fs added with
  | nil => simp [selectLoop]
  | cons m t ih =>
    simp only [selectLoop]
    by_cases hb : budget ≤ (fs.length : Int)
    · rw [if_pos hb]
    · rw [if_neg hb]
      by_cases hc : m.location ∈ added
      · rw [if_pos hc]; exact ih fs added
      · rw [if_neg hc]
        calc fs.length ≤ (fs ++ [m]).length := by simp
          _ ≤ _ := ih _ _

/-- Everything the selection loop returns came from the accumulator or from the
candidate list. -/
theorem selectLoop_mem (budget : Int) (l fs : List PotentialMatch)
    (added : List String) (x : PotentialMatch)
    (h : x ∈ selectLoop budget l fs added) : x ∈ fs ∨ x ∈ l := by
  induction l generalizing fs added with
  | nil =>
    simp only [selectLoop] at h
    exact Or.inl h
  | cons m t ih =>
    simp only [selectLoop] at h
    by_cases hb : budget ≤ (fs.length : Int)
    · rw [if_pos hb] at h; exact Or.inl h
    · rw [if_neg hb] at h
      by_cases hc : m.location ∈ added
      · rw [if_pos hc] at h
        rcases ih _ _ h with h1 | h1
        · exact Or.inl h1
        · exact Or.inr (List.mem_cons_of_mem _ h1)
      · rw [if_neg hc] at h
        rcases ih _ _ h with h1 | h1
        · rcases List.mem_append.mp h1 with h2 | h2
          · exact Or.inl h2
          · rw [List.mem_singleton] at h2
            exact Or.inr (h2 ▸ List.mem_cons_self _ _)
        · exact Or.inr (List.mem_cons_of_mem _ h1)

/-- The selection loop keeps at most one stop per location: the
`locations_added` set blocks any location already taken. -/
theorem selectLoop_nodup (budget : Int) (l fs : List PotentialMatch)
    (added : List String) (h1 : fs.map (fun m => m.location) = added)
    (h2 : added.Nodup) :
    ((selectLoop budget l fs added).map (fun m => m.location)).Nodup := by
  induction l generalizing fs added with
  | nil =>
    simp only [selectLoop]
    exact h1 ▸ h2
  | cons m t ih =>
    simp only [selectLoop]
    by_cases hb : budget ≤ (fs.length : Int)
    · rw [if_pos hb]; exact h1 ▸ h2
    · rw [if_neg hb]
      by_cases hc : m.location ∈ added
      · rw [if_pos hc]; exact ih fs added h1 h2
      · rw [if_neg hc]
        refine ih _ _ ?_ ?_
        · simp [h1]
        · rw [List.nodup_append]
          refine ⟨h2, List.nodup_singleton _, ?_⟩
          intro x hx hmem
          rw [List.mem_singleton] at hmem
          exact hc (hmem ▸ hx)

/-- The stable sort is a permutation of its input. -/
theorem pySorted_perm {α : Type} (key : α → Int) (l : List α) :
    (pySorted key l).Perm l :=
  List.perm_insertionSort _ l

/-- Membership is preserved by the stable sort. -/
theorem pySorted_mem {α : Type} (key : α → Int) (l : List α) (x : α) :
    x ∈ pySorted key l ↔ x ∈ l :=
  List.mem_insertionSort _

/-- Length is preserved by the stable sort. -/
theorem pySorted_length {α : Type} (key : α → Int) (l : List α) :
    (pySorted key l).length = l.length :=
  List.length_insertionSort _ l

/-- The stable sort really sorts by its key. -/
theorem pySorted_sorted {α : Type} (key : α → Int) (l : List α) :
    (pySorted key l).Sorted (fun a b => key a ≤ key b) := by
  haveI h1 : IsTotal α (fun a b => key a ≤ key b) := ⟨fun a b => Int.le_total _ _⟩
  haveI h2 : IsTrans α (fun a b => key a ≤ key b) :=
    ⟨fun _ _ _ hab hbc => le_trans hab hbc⟩
  exact List.sorted_insertionSort _ l

/-- Numbering stops does not change how many there are. -/
theorem numberStopsFrom_length (n : Nat) (stops : List PotentialMatch) :
    (numberStopsFrom n stops).length = stops.length := by
  induction stops generalizing n with
  | nil => rfl
  | cons s t ih => simp [numberStopsFrom, ih]

/-- The locations of the numbered items are the locations of the stops. -/
theorem numberStopsFrom_map_location (n : Nat) (stops : List PotentialMatch) :
    (numberStopsFrom n stops).map (fun i => i.location) =
      stops.map (fun m => m.location) := by
  induction stops generalizing n with
  | nil => rfl
  | cons s t ih => simp [numberStopsFrom, ih]

/-- The stop numbers produced from `n` are the consecutive run
`n, n+1, ...` of length `stops.length`. -/
theorem numberStopsFrom_map_num (n : Nat) (stops : List PotentialMatch) :
    (numberStopsFrom n stops).map (fun i => i.stop_number) =
      List.range' n stops.length := by
  induction stops generalizing n with
  | nil => rfl
  | cons s t ih => simp [numberStopsFrom, List.range', ih]

/-- Dropping the avoided region only removes candidates. -/
theorem filterAvoid_subset (avoid : Option String) (ms : List PotentialMatch)
    (x : PotentialMatch) (h : x ∈ filterAvoid avoid ms) : x ∈ ms := by
  cases avoid with
  | none => exact h
  | some r => exact (List.mem_filter.mp h).1

/-- A candidate surviving the avoid filter is not in the avoided region. -/
theorem filterAvoid_region (r : String) (ms : List PotentialMatch)
    (x : PotentialMatch) (h : x ∈ filterAvoid (some r) ms) : x.region ≠ r := by
  have := (List.mem_filter.mp h).2
  simpa [bne_iff_ne] using this

/-- The selected stops respect the pacing budget. -/
theorem selectStops_length_le (d : Int) (ms : List PotentialMatch)
    (a s : Option String) : ((selectStops d ms a s).length : Int) ≤ maxStops d := by
  unfold selectStops
  rw [pySorted_length]
  refine selectLoop_length_le _ _ _ _ ?_
  simp only [List.length_nil, Nat.cast_zero]
  exact le_trans zero_le_one (maxStops_pos d)

/-- The selected stops have pairwise distinct locations. -/
theorem selectStops_nodup (d : Int) (ms : List PotentialMatch)
    (a s : Option String) :
    ((selectStops d ms a s).map (fun m => m.location)).Nodup := by
  unfold selectStops
  have hinner := selectLoop_nodup (maxStops d)
    (pySorted (sortKey s) (filterAvoid a ms)) [] [] rfl List.nodup_nil
  have hperm := (pySorted_perm (fun m => m.priority)
    (selectLoop (maxStops d) (pySorted (sortKey s) (filterAvoid a ms)) [] [])).map
    (fun m => m.location)
  exact hperm.symm.nodup hinner

/-- Every selected stop is one of the candidates. -/
theorem selectStops_subset (d : Int) (ms : List PotentialMatch)
    (a s : Option String) (x : PotentialMatch) (h : x ∈ selectStops d ms a s) :
    x ∈ ms := by
  unfold selectStops at h
  rw [pySorted_mem] at h
  rcases selectLoop_mem _ _ _ _ _ h with h1 | h1
  · simp at h1
  · rw [pySorted_mem] at h1
    exact filterAvoid_subset a ms x h1

/-- Every selected stop survived the avoid filter. -/
theorem selectStops_mem_filterAvoid (d : Int) (ms : List PotentialMatch)
    (a s : Option String) (x : PotentialMatch) (h : x ∈ selectStops d ms a s) :
    x ∈ filterAvoid a ms := by
  unfold selectStops at h
  rw [pySorted_mem] at h
  rcases selectLoop_mem _ _ _ _ _ h with h1 | h1
  · simp at h1
  · rw [pySorted_mem] at h1
    exact h1

/-- The final re-sort leaves the selected stops in non-decreasing raw priority
order. -/
theorem selectStops_sorted (d : Int) (ms : List PotentialMatch)
    (a s : Option String) :
    List.Sorted (fun p q => p ≤ q) ((selectStops d ms a s).map (fun m => m.priority)) := by
  unfold selectStops
  exact List.pairwise_map.mpr
    (pySorted_sorted (fun m : PotentialMatch => m.priority)
      (selectLoop (maxStops d) (pySorted (sortKey s) (filterAvoid a ms)) [] []))

/-- When at least one candidate survives the avoid filter, at least one stop is
selected: the budget is at least one and the first surviving candidate is taken. -/
theorem selectStops_ne_nil (d : Int) (ms : List PotentialMatch)
    (a s : Option String) (h : filterAvoid a ms ≠ []) : selectStops d ms a s ≠ [] := by
  have hlen : filterAvoid a ms ≠ [] → 0 < (filterAvoid a ms).length :=
    fun hne => List.length_pos.mpr hne
  have hsortlen : 0 < (pySorted (sortKey s) (filterAvoid a ms)).length := by
    rw [pySorted_length]; exact hlen h
  rcases List.exists_cons_of_ne_nil (List.ne_nil_of_length_pos hsortlen) with ⟨m, t, hcons⟩
  unfold selectStops
  rw [hcons]
  have hone : 1 ≤ (selectLoop (maxStops d) (m :: t) [] []).length := by
    simp only [selectLoop]
    rw [if_neg (by simpa using not_le_of_lt (lt_of_lt_of_le zero_lt_one (maxStops_pos d)))]
    rw [if_neg (by simp)]
    calc 1 = ([] ++ [m] : List PotentialMatch).length := by simp
      _ ≤ _ := selectLoop_length_ge _ _ _ _
  intro hnil
  have := congrArg List.length hnil
  rw [pySorted_length] at this
  simp only [List.length_nil] at this
  omega

/-- The run itinerary is the numbering of the run stops. -/
theorem runItinerary_eq (d : Int) (month : String) (interests : List String)
    (llm : String → Option (String × String)) :
    runItinerary d month interests llm = numberStops (runStops d month interests llm) := by
  unfold runItinerary runStops buildFinalItinerary
  by_cases h : (builderMatches month interests llm).isEmpty
  · rw [if_pos h, if_pos h]; rfl
  · rw [if_neg h, if_neg h]

/-- Every `PotentialMatch` the rule `find_potential_matches` asserts is for a
region with no avoid recommendation (its `NOT` condition). -/
theorem findPotentialMatches_not_avoid (month : String) (interests : List String)
    (locations : List Location) (m : PotentialMatch)
    (h : m ∈ findPotentialMatches month interests locations) :
    m.region ∉ determineBadWeatherRegion month interests := by
  unfold findPotentialMatches at h
  rcases List.mem_map.mp h with ⟨l, hl, rfl⟩
  have hf := (List.mem_filter.mp hl).2
  simp only [Bool.and_eq_true, Bool.not_eq_true', decide_eq_true_eq,
    decide_eq_false_iff_not] at hf
  exact hf.2

/-- Whichever pass the builder fires in, its candidates all avoid the regions
with avoid recommendations. -/
theorem builderMatches_not_avoid (month : String) (interests : List String)
    (llm : String → Option (String × String)) (m : PotentialMatch)
    (h : m ∈ builderMatches month interests llm) :
    m.region ∉ determineBadWeatherRegion month interests := by
  unfold builderMatches at h
  by_cases hp : (findPotentialMatches month interests seedLocations).isEmpty
  · rw [if_pos hp] at h
    exact findPotentialMatches_not_avoid _ _ _ _ h
  · rw [if_neg hp] at h
    exact findPotentialMatches_not_avoid _ _ _ _ h

/-- The too-many-stops warning text does contain the guard substring. -/
theorem manyStopsMsg_guard : isManyStopsWarning manyStopsMsg = true := by decide

/-- The travel-time warning text does not contain the guard substring. -/
theorem travelMsg_guard : isManyStopsWarning travelMsg = false := by decide

/-- The two conflict warnings are distinct messages. -/
theorem manyStopsMsg_ne_travelMsg : manyStopsMsg ≠ travelMsg := by decide

/-- No monsoon warning built from the seed weather facts contains the
"many stops" guard substring. -/
theorem seedWeather_guard :
    seedWeather.all (fun w => !isManyStopsWarning (weatherMsg w.1 w.2)) = true := by decide

/-- No monsoon warning built from the seed weather facts equals the travel-time
warning. -/
theorem seedWeather_ne_travelMsg :
    seedWeather.all (fun w => weatherMsg w.1 w.2 != travelMsg) = true := by decide

/-- No warning asserted by the weather rule satisfies the too-many-stops guard. -/
theorem weatherWarnings_countP (month : String) (interests : List String) :
    (weatherWarnings month interests).countP isManyStopsWarning = 0 := by
  rw [List.countP_eq_zero]
  intro x hx
  unfold weatherWarnings at hx
  by_cases hb : wantsBeach interests
  · rw [if_pos hb] at hx
    rcases List.mem_map.mp hx with ⟨w, hw, rfl⟩
    have hall := List.all_eq_true.mp seedWeather_guard w (List.mem_filter.mp hw).1
    simpa using hall
  · rw [if_neg hb] at hx
    simp at hx

/-- The travel-time warning is never among the weather warnings. -/
theorem travelMsg_not_weather (month : String) (interests : List String) :
    travelMsg ∉ weatherWarnings month interests := by
  intro hx
  unfold weatherWarnings at hx
  by_cases hb : wantsBeach interests
  · rw [if_pos hb] at hx
    rcases List.mem_map.mp hx with ⟨w, hw, heq⟩
    have hall := List.all_eq_true.mp seedWeather_ne_travelMsg w (List.mem_filter.mp hw).1
    rw [bne_iff_ne] at hall
    exact hall heq
  · rw [if_neg hb] at hx
    simp at hx

/-- Membership through the travel-time rule: the output holds a message iff the
message was already stored or it is the travel warning and the rule fired. -/
theorem conflictTravelTime_mem (d : Int) (items : List ItineraryItem)
    (ws : List String) (x : String) :
    x ∈ conflictTravelTime d items ws ↔
      x ∈ ws ∨ (x = travelMsg ∧ d < 10 ∧ (∃ a ∈ items, a.location = "Sigiriya") ∧
        (∃ b ∈ items, b.location = "Arugam Bay")) := by
  unfold conflictTravelTime
  by_cases h : d < 10 ∧ (∃ a ∈ items, a.location = "Sigiriya") ∧
      (∃ b ∈ items, b.location = "Arugam Bay")
  · rw [if_pos h]
    simp only [List.mem_append, List.mem_singleton]
    tauto
  · rw [if_neg h]
    constructor
    · exact Or.inl
    · rintro (hx | ⟨_, hcond⟩)
      · exact hx
      · exact absurd hcond h

/-- Once any stored warning satisfies the guard, the fold of the too-many-stops
rule changes nothing. -/
theorem tmsFold_stable (ts : List (ItineraryItem × ItineraryItem × ItineraryItem))
    (ws : List String) (h : ws.any isManyStopsWarning = true) :
    ts.foldl (fun acc _ => if acc.any isManyStopsWarning then acc
      else acc ++ [manyStopsMsg]) ws = ws := by
  induction ts with
  | nil => rfl
  | cons t ts ih =>
    simp only [List.foldl_cons, if_pos h]
    exact ih

/-- The too-many-stops rule either leaves the warning store unchanged or
appends its single warning. -/
theorem conflictTooManyStops_cases (d : Int) (items : List ItineraryItem)
    (ws : List String) :
    conflictTooManyStops d items ws = ws ∨
      conflictTooManyStops d items ws = ws ++ [manyStopsMsg] := by
  unfold conflictTooManyStops
  by_cases hd : d < 7
  · rw [if_pos hd]
    cases hts : distinctTriples items with
    | nil => exact Or.inl rfl
    | cons t ts =>
      simp only [List.foldl_cons]
      by_cases hany : ws.any isManyStopsWarning = true
      · rw [if_pos hany]
        exact Or.inl (tmsFold_stable ts ws hany)
      · rw [if_neg hany]
        refine Or.inr (tmsFold_stable ts (ws ++ [manyStopsMsg]) ?_)
        rw [List.any_append]
        simp [manyStopsMsg_guard]
  · rw [if_neg hd]
    exact Or.inl rfl

/-- Counting guard-matching warnings through the too-many-stops rule, starting
from a store with none: exactly one appears iff the rule has a satisfiable
instantiation, none otherwise. -/
theorem conflictTooManyStops_countP (d : Int) (items : List ItineraryItem)
    (ws : List String) (h : ws.countP isManyStopsWarning = 0) :
    (conflictTooManyStops d items ws).countP isManyStopsWarning =
      if d < 7 ∧ distinctTriples items ≠ [] then 1 else 0 := by
  have hany : ws.any isManyStopsWarning = false := by
    rw [List.any_eq_false]
    intro x hx
    exact List.countP_eq_zero.mp h x hx
  unfold conflictTooManyStops
  by_cases hd : d < 7
  · rw [if_pos hd]
    cases hts : distinctTriples items with
    | nil =>
      rw [if_neg (by simp [hts])]
      exact h
    | cons t ts =>
      rw [if_pos ⟨hd, by simp [hts]⟩]
      simp only [List.foldl_cons]
      rw [if_neg (by simp [hany])]
      rw [tmsFold_stable ts (ws ++ [manyStopsMsg])
        (by rw [List.any_append]; simp [manyStopsMsg_guard])]
      rw [List.countP_append, h]
      simp [List.countP, List.countP.go, manyStopsMsg_guard]
  · rw [if_neg hd]
    rw [if_neg (by intro hc; exact hd hc.1)]
    exact h

/-- The instantiations of the too-many-stops rule are exactly the triples of
stored items with pairwise distinct locations. -/
theorem distinctTriples_mem (items : List ItineraryItem)
    (a b c : ItineraryItem) :
    (a, b, c) ∈ distinctTriples items ↔
      (a ∈ items ∧ b ∈ items ∧ c ∈ items ∧ a.location ≠ b.location ∧
        a.location ≠ c.location ∧ b.location ≠ c.location) := by
  unfold distinctTriples
  rw [List.mem_filter]
  simp only [List.mem_flatMap, List.mem_map, Bool.and_eq_true, bne_iff_ne]
  constructor
  · rintro ⟨⟨a1, ha1, b1, hb1, c1, hc1, heq⟩, hne⟩
    obtain ⟨rfl, rfl, rfl⟩ : a1 = a ∧ b1 = b ∧ c1 = c := by
      simpa [Prod.ext_iff] using heq
    exact ⟨ha1, hb1, hc1, hne.1.1, hne.1.2, hne.2⟩
  · rintro ⟨ha, hb, hc, h1, h2, h3⟩
    exact ⟨⟨a, ha, b, hb, c, hc, rfl⟩, ⟨h1, h2⟩, h3⟩

/-- The too-many-stops rule has a satisfiable instantiation iff three stored
items have pairwise distinct locations. -/
theorem distinctTriples_ne_nil (items : List ItineraryItem) :
    distinctTriples items ≠ [] ↔
      (∃ a ∈ items, ∃ b ∈ items, ∃ c ∈ items, a.location ≠ b.location ∧
        a.location ≠ c.location ∧ b.location ≠ c.location) := by
  constructor
  · intro h
    rcases List.exists_mem_of_ne_nil _ h with ⟨⟨a, b, c⟩, ht⟩
    rw [distinctTriples_mem] at ht
    exact ⟨a, ht.1, b, ht.2.1, c, ht.2.2.1, ht.2.2.2.1, ht.2.2.2.2.1, ht.2.2.2.2.2⟩
  · rintro ⟨a, ha, b, hb, c, hc, h1, h2, h3⟩
    exact List.ne_nil_of_mem ((distinctTriples_mem items a b c).mpr
      ⟨ha, hb, hc, h1, h2, h3⟩)

/-- The run records the `FindInfo` interests of the unknown-interest rule. -/
theorem runItineraryLogic_findInfos (d : Int) (month : String) (interests : List String)
    (llm : String → Option (String × String)) :
    (runItineraryLogic d month interests llm).findInfos =
      detectUnknownInterests interests := rfl

/-- The run records the avoid regions of the bad-weather rule. -/
theorem runItineraryLogic_avoidRecs (d : Int) (month : String) (interests : List String)
    (llm : String → Option (String × String)) :
    (runItineraryLogic d month interests llm).avoidRecs =
      determineBadWeatherRegion (lowerStr month) interests := rfl

/-- The run records the suggest regions of the good-weather rule. -/
theorem runItineraryLogic_suggestRecs (d : Int) (month : String) (interests : List String)
    (llm : String → Option (String × String)) :
    (runItineraryLogic d month interests llm).suggestRecs =
      determineGoodWeatherRegion (lowerStr month) interests := rfl

/-- The run records the stops the builder selected. -/
theorem runItineraryLogic_stops (d : Int) (month : String) (interests : List String)
    (llm : String → Option (String × String)) :
    (runItineraryLogic d month interests llm).stops =
      runStops d (lowerStr month) interests llm := rfl

/-- The run records the asserted `ItineraryItem` facts. -/
theorem runItineraryLogic_itinerary (d : Int) (month : String) (interests : List String)
    (llm : String → Option (String × String)) :
    (runItineraryLogic d month interests llm).itinerary =
      runItinerary d (lowerStr month) interests llm := rfl

/-- The run records the asserted `Warning` messages. -/
theorem runItineraryLogic_warnings (d : Int) (month : String) (interests : List String)
    (llm : String → Option (String × String)) :
    (runItineraryLogic d month interests llm).warnings =
      runWarnings d (lowerStr month) interests llm := rfl

/-! ### The claims -/

/-- C1: for every firing of the build-final-itinerary rule with duration `d`,
the number of `ItineraryItem` facts it asserts is at most
`max_stops = max(1, floor(d / 2) + 1)` (`maxStops d`; the pacing constant of
app.py is K = 2). -/
theorem buildFinalItinerary_length_le_maxStops (d : Int)
    (allMatches : List PotentialMatch) (avoid suggest : Option String) :
    ((buildFinalItinerary d allMatches avoid suggest).length : Int) ≤ maxStops d := by
  unfold buildFinalItinerary
  by_cases h : allMatches.isEmpty
  · rw [if_pos h]
    simp only [List.length_nil, Nat.cast_zero]
    exact le_trans zero_le_one (maxStops_pos d)
  · rw [if_neg h]
    unfold numberStops
    rw [numberStopsFrom_length]
    exact selectStops_length_le d allMatches avoid suggest

/-- C2: in any run, the asserted `ItineraryItem` facts have pairwise distinct
locations, even when several interests independently nominate the same
location: the builder selects at most one stop per location name. -/
theorem itinerary_locations_nodup (d : Int) (month : String)
    (interests : List String) (llm : String → Option (String × String)) :
    (((runItineraryLogic d month interests llm).itinerary).map
      (fun i => i.location)).Nodup := by
  rw [runItineraryLogic_itinerary, runItinerary_eq]
  unfold numberStops
  rw [numberStopsFrom_map_location]
  unfold runStops
  by_cases h : (builderMatches (lowerStr month) interests llm).isEmpty
  · rw [if_pos h]
    simp
  · rw [if_neg h]
    exact selectStops_nodup _ _ _ _

/-- C3: in every run with a non-empty itinerary, the stop numbers are exactly
`1..len(itinerary)` with no gaps or repeats, and the items (numbered in that
order from the re-sorted selected stops) follow the non-decreasing raw
priority of the selected candidates. -/
theorem stop_numbering (d : Int) (month : String) (interests : List String)
    (llm : String → Option (String × String))
    (h : (runItineraryLogic d month interests llm).itinerary ≠ []) :
    ((runItineraryLogic d month interests llm).itinerary.map (fun i => i.stop_number) =
        List.range' 1 (runItineraryLogic d month interests llm).itinerary.length) ∧
      List.Sorted (fun p q => p ≤ q)
        ((runItineraryLogic d month interests llm).stops.map (fun m => m.priority)) ∧
      (runItineraryLogic d month interests llm).itinerary.map (fun i => i.location) =
        (runItineraryLogic d month interests llm).stops.map (fun m => m.location) := by
  rw [runItineraryLogic_itinerary, runItineraryLogic_stops, runItinerary_eq]
  unfold numberStops
  refine ⟨?_, ?_, numberStopsFrom_map_location _ _⟩
  · rw [numberStopsFrom_map_num, numberStopsFrom_length]
  · unfold runStops
    by_cases hb : (builderMatches (lowerStr month) interests llm).isEmpty
    · rw [if_pos hb]
      simp
    · rw [if_neg hb]
      exact selectStops_sorted _ _ _ _

/-- Witness for C3: a seven-day history trip in March yields a non-empty
itinerary satisfying the numbering and ordering properties. -/
theorem stop_numbering_witness :
    ((runItineraryLogic 7 "march" ["history"] (fun _ => none)).itinerary ≠ []) ∧
      (((runItineraryLogic 7 "march" ["history"] (fun _ => none)).itinerary.map
          (fun i => i.stop_number) =
        List.range' 1 (runItineraryLogic 7 "march" ["history"]
          (fun _ => none)).itinerary.length) ∧
      List.Sorted (fun p q => p ≤ q)
        ((runItineraryLogic 7 "march" ["history"] (fun _ => none)).stops.map
          (fun m => m.priority)) ∧
      (runItineraryLogic 7 "march" ["history"] (fun _ => none)).itinerary.map
          (fun i => i.location) =
        (runItineraryLogic 7 "march" ["history"] (fun _ => none)).stops.map
          (fun m => m.location)) :=
  ⟨by decide, stop_numbering 7 "march" ["history"] (fun _ => none) (by decide)⟩

/-- C4: in every run that derived an avoid-region recommendation, no selected
stop (hence no asserted `ItineraryItem`) originates from a candidate whose
region equals that avoid region. -/
theorem avoid_region_excluded (d : Int) (month : String) (interests : List String)
    (llm : String → Option (String × String)) (r : String)
    (h : r ∈ (runItineraryLogic d month interests llm).avoidRecs) :
    ∀ m ∈ (runItineraryLogic d month interests llm).stops, m.region ≠ r := by
  intro m hm
  rw [runItineraryLogic_stops] at hm
  rw [runItineraryLogic_avoidRecs] at h
  unfold runStops at hm
  by_cases hb : (builderMatches (lowerStr month) interests llm).isEmpty
  · rw [if_pos hb] at hm
    simp at hm
  · rw [if_neg hb] at hm
    have hmem := selectStops_subset _ _ _ _ _ hm
    have hnot := builderMatches_not_avoid _ _ _ _ hmem
    intro heq
    exact hnot (heq ▸ h)

/-- Witness for C4: a beach trip in May derives avoid recommendations
(south_west among them) and selects no stop in the south_west region. -/
theorem avoid_region_excluded_witness :
    ("south_west" ∈ (runItineraryLogic 7 "may" ["beach"] (fun _ => none)).avoidRecs) ∧
      ∀ m ∈ (runItineraryLogic 7 "may" ["beach"] (fun _ => none)).stops,
        m.region ≠ "south_west" :=
  ⟨by decide, avoid_region_excluded 7 "may" ["beach"] (fun _ => none) "south_west"
    (by decide)⟩

/-- Distinct weather-hazard regions per month in the seed knowledge: no month
lists the same bad region twice. -/
theorem seedWeather_pairwise :
    seedWeather.Pairwise (fun a b => a.2 = b.2 → a.1 ≠ b.1) := by decide

/-- The avoid regions derived for a month are pairwise distinct. -/
theorem determineBadWeatherRegion_nodup (month : String) (interests : List String) :
    (determineBadWeatherRegion month interests).Nodup := by
  unfold determineBadWeatherRegion
  by_cases hb : wantsBeach interests
  · rw [if_pos hb]
    have h0 := seedWeather_pairwise.filter (fun w => w.2 == month)
    have hp : (seedWeather.filter (fun w => w.2 == month)).Pairwise
        (fun a b => a.1 ≠ b.1) := by
      refine h0.imp_of_mem ?_
      intro a b ha hb' hr
      have ha2 : a.2 = month := by simpa using (List.mem_filter.mp ha).2
      have hb2 : b.2 = month := by simpa using (List.mem_filter.mp hb').2
      exact hr (ha2.trans hb2.symm)
    exact List.pairwise_map.mpr hp
  · rw [if_neg hb]
    exact List.nodup_nil

/-- The suggest regions derived for a month are pairwise distinct: the action
guard of the good-weather rule skips any region already suggested. -/
theorem determineGoodWeatherRegion_nodup (month : String) (interests : List String) :
    (determineGoodWeatherRegion month interests).Nodup := by
  unfold determineGoodWeatherRegion
  by_cases hb : wantsBeach interests
  · rw [if_pos hb]
    exact dedupFold_nodup _ _ List.nodup_nil
  · rw [if_neg hb]
    exact List.nodup_nil

/-- C5, counterexample: a seven-day beach trip in May leaves three avoid
recommendations live at once (south_west, south and hill_country are all
monsoon-hit in May), so a run can hold more than one avoid-bearing
`Recommendation`. -/
theorem single_recommendation_refuted :
    ¬((runItineraryLogic 7 "may" ["beach"] (fun _ => none)).avoidRecs.length ≤ 1 ∧
      (runItineraryLogic 7 "may" ["beach"] (fun _ => none)).suggestRecs.length ≤ 1) := by
  decide

/-- C5, amended: in every run the live avoid-bearing recommendations name
pairwise distinct regions and the live suggest-bearing recommendations name
pairwise distinct regions (at most one of each kind per region), though a run
may hold several of each kind. -/
theorem recommendations_nodup_per_region (d : Int) (month : String)
    (interests : List String) (llm : String → Option (String × String)) :
    (runItineraryLogic d month interests llm).avoidRecs.Nodup ∧
      (runItineraryLogic d month interests llm).suggestRecs.Nodup :=
  ⟨determineBadWeatherRegion_nodup _ _, determineGoodWeatherRegion_nodup _ _⟩

/-- C6, counterexample: a request with an empty month string is not rejected;
it reaches the inference cycle and produces a complete four-stop itinerary, so
the entry point does not fail fast on malformed fields. -/
theorem empty_month_runs_inference :
    (runItineraryLogic 7 "" ["history"] (fun _ => none)).itinerary.map
      (fun i => i.location) =
      ["Anuradhapura", "Polonnaruwa", "Sigiriya", "Dambulla"] := by decide

/-- C6, amended: the entry point performs no validation of request fields; a
request with an empty month is passed into the inference cycle, where the
month matches no `Weather` fact, so no avoid recommendation and no monsoon
warning is derived and planning proceeds normally. -/
theorem no_validation_empty_month (d : Int) (interests : List String)
    (llm : String → Option (String × String)) :
    (runItineraryLogic d "" interests llm).avoidRecs = [] ∧
      weatherWarnings (lowerStr "") interests = [] := by
  constructor
  · rw [runItineraryLogic_avoidRecs]
    unfold determineBadWeatherRegion
    by_cases hb : wantsBeach interests
    · rw [if_pos hb]
      have : seedWeather.filter (fun w => w.2 == lowerStr "") = [] := by decide
      rw [this]
      rfl
    · rw [if_neg hb]
  · unfold weatherWarnings
    by_cases hb : wantsBeach interests
    · rw [if_pos hb]
      have : seedWeather.filter (fun w => w.2 == lowerStr "") = [] := by decide
      rw [this]
      rfl
    · rw [if_neg hb]

/-- C7: in every run, the warning store ends with exactly one warning matching
the "many stops" guard when the duration is under 7 and three asserted
`ItineraryItem` facts have pairwise distinct locations, and with none
otherwise: the guard collapses the many satisfying instantiations of the rule
to one assertion. -/
theorem too_many_stops_warning_count (d : Int) (month : String)
    (interests : List String) (llm : String → Option (String × String)) :
    (runItineraryLogic d month interests llm).warnings.countP isManyStopsWarning =
      if d < 7 ∧ (∃ a ∈ (runItineraryLogic d month interests llm).itinerary,
          ∃ b ∈ (runItineraryLogic d month interests llm).itinerary,
          ∃ c ∈ (runItineraryLogic d month interests llm).itinerary,
          a.location ≠ b.location ∧ a.location ≠ c.location ∧
            b.location ≠ c.location) then 1 else 0 := by
  rw [runItineraryLogic_warnings, runItineraryLogic_itinerary]
  unfold runWarnings
  have h2 : (conflictTravelTime d (runItinerary d (lowerStr month) interests llm)
      (weatherWarnings (lowerStr month) interests)).countP isManyStopsWarning = 0 := by
    unfold conflictTravelTime
    by_cases hc : d < 10 ∧
        (∃ a ∈ runItinerary d (lowerStr month) interests llm, a.location = "Sigiriya") ∧
        (∃ b ∈ runItinerary d (lowerStr month) interests llm, b.location = "Arugam Bay")
    · rw [if_pos hc, List.countP_append, weatherWarnings_countP]
      simp [List.countP_cons, travelMsg_guard]
    · rw [if_neg hc]
      exact weatherWarnings_countP _ _
  rw [conflictTooManyStops_countP _ _ _ h2]
  exact if_congr
    (and_congr_right (fun _ =>
      distinctTriples_ne_nil (runItinerary d (lowerStr month) interests llm)))
    rfl rfl

/-- C8: in every run, the travel-time warning for the fixed Sigiriya-Arugam Bay
pair is asserted iff the duration is under 10 and both locations appear among
the asserted `ItineraryItem` facts; otherwise that warning is absent. -/
theorem travel_time_warning_iff (d : Int) (month : String)
    (interests : List String) (llm : String → Option (String × String)) :
    travelMsg ∈ (runItineraryLogic d month interests llm).warnings ↔
      (d < 10 ∧
        (∃ a ∈ (runItineraryLogic d month interests llm).itinerary,
          a.location = "Sigiriya") ∧
        (∃ b ∈ (runItineraryLogic d month interests llm).itinerary,
          b.location = "Arugam Bay")) := by
  rw [runItineraryLogic_warnings, runItineraryLogic_itinerary]
  unfold runWarnings
  have hmem3 : travelMsg ∈ conflictTooManyStops d
      (runItinerary d (lowerStr month) interests llm)
      (conflictTravelTime d (runItinerary d (lowerStr month) interests llm)
        (weatherWarnings (lowerStr month) interests)) ↔
      travelMsg ∈ conflictTravelTime d (runItinerary d (lowerStr month) interests llm)
        (weatherWarnings (lowerStr month) interests) := by
    rcases conflictTooManyStops_cases d (runItinerary d (lowerStr month) interests llm)
        (conflictTravelTime d (runItinerary d (lowerStr month) interests llm)
          (weatherWarnings (lowerStr month) interests)) with hc | hc
    · rw [hc]
    · rw [hc]
      simp only [List.mem_append, List.mem_singleton]
      constructor
      · rintro (hx | hx)
        · exact hx
        · exact absurd hx.symm manyStopsMsg_ne_travelMsg
      · exact Or.inl
  rw [hmem3, conflictTravelTime_mem]
  constructor
  · rintro (hw | ⟨_, hc⟩)
    · exact absurd hw (travelMsg_not_weather _ _)
    · exact hc
  · intro hc
    exact Or.inr ⟨rfl, hc⟩

/-- C9: in every run, an interest of the request yields a `FindInfo` fact
exactly when it is not the `type` of any `Location` fact known at match time
(the seed locations); known interests yield none. -/
theorem findInfo_iff_unknown_interest (d : Int) (month : String)
    (interests : List String) (llm : String → Option (String × String))
    (i : String) :
    i ∈ (runItineraryLogic d month interests llm).findInfos ↔
      (i ∈ interests ∧ ∀ l ∈ seedLocations, l.type ≠ i) := by
  rw [runItineraryLogic_findInfos]
  unfold detectUnknownInterests
  rw [dedupFold_mem]
  simp only [List.not_mem_nil, false_or, List.mem_filter, Bool.not_eq_true',
    decide_eq_false_iff_not]
  constructor
  · rintro ⟨hi, hn⟩
    exact ⟨hi, fun l hl heq => hn (List.mem_map.mpr ⟨l, hl, heq⟩)⟩
  · rintro ⟨hi, hall⟩
    refine ⟨hi, fun hmem => ?_⟩
    rcases List.mem_map.mp hmem with ⟨l, hl, heq⟩
    exact hall l hl heq

/-- C10: whenever the builder fires and at least one candidate survives the
avoid-region filter, the pacing budget (at least one for every integer
duration) admits at least one stop, so the builder asserts at least one
`ItineraryItem`: an empty itinerary can only come from every candidate being
filtered out or none existing. -/
theorem builder_asserts_when_candidate_survives (d : Int)
    (allMatches : List PotentialMatch) (avoid suggest : Option String)
    (h : filterAvoid avoid allMatches ≠ []) :
    1 ≤ maxStops d ∧ buildFinalItinerary d allMatches avoid suggest ≠ [] := by
  refine ⟨maxStops_pos d, ?_⟩
  have hms : ¬allMatches.isEmpty = true := by
    intro he
    rw [List.isEmpty_iff] at he
    apply h
    rw [he]
    cases avoid with
    | none => rfl
    | some r => rfl
  unfold buildFinalItinerary
  rw [if_neg hms]
  have hne := selectStops_ne_nil d allMatches avoid suggest h
  unfold numberStops
  intro hnil
  have hl := congrArg List.length hnil
  rw [numberStopsFrom_length] at hl
  simp only [List.length_nil] at hl
  exact hne (List.length_eq_zero.mp hl)

/-- Witness for C10: a single surviving wildlife candidate on a one-day trip
still yields a stop. -/
theorem builder_asserts_witness :
    (filterAvoid none [⟨"Yala", "wildlife", "south_east", 9,
        "Go on a safari to spot leopards, elephants, and bears."⟩] ≠ []) ∧
      (1 ≤ maxStops 1 ∧
        buildFinalItinerary 1 [⟨"Yala", "wildlife", "south_east", 9,
          "Go on a safari to spot leopards, elephants, and bears."⟩] none none ≠ []) :=
  ⟨by decide, builder_asserts_when_candidate_survives 1
    [⟨"Yala", "wildlife", "south_east", 9,
      "Go on a safari to spot leopards, elephants, and bears."⟩] none none (by decide)⟩

end TouristAdvisor
